import Mathlib

/-!
Verification of the Insight-Hub forecasting core.

The embedded code consists of the analytics module (polynomial regression,
moving average, seasonal decomposition, enhanced prediction generation) and
the linear-regression helper from the mock-data module.

Modelling conventions:
* JavaScript numbers are modelled as exact rationals (`ℚ`); numeric literals
  such as `1.05` or `1e-10` become the corresponding exact rationals.
* JavaScript arrays are Lean lists.  Reading an index out of range yields the
  default `0` (`List.getD`); writing one slot past the end extends the array,
  exactly as a JavaScript element assignment does (`setExt`).
* `Math.sin`, `Math.random()` and the wall-clock month are ambient effects in
  the source; they are made explicit parameters (`msin`, `rnd`, and
  `currentMonth`), with `rnd k` the value produced by the k-th call of
  `Math.random()` inside the prediction loop.
-/

namespace InsightHub

/-- JavaScript `a || b` on numbers: `a` when it is nonzero (truthy), else `b`. -/
def jsOr (a b : ℚ) : ℚ := if a = 0 then b else a

/-- Entry `A[i][j]` of a row-major matrix; out-of-range reads give `0`. -/
def mEntry (A : List (List ℚ)) (i j : ℕ) : ℚ := (A.getD i []).getD j 0

/-- JavaScript array element assignment `l[i] = v`: an in-bounds write updates
the slot, and a write past the end extends the array up to index `i`
(intervening holes, which never arise in this code, are modelled as `0`). -/
def setExt (l : List ℚ) (i : ℕ) (v : ℚ) : List ℚ :=
  if i < l.length then l.set i v
  else l ++ List.replicate (i - l.length) 0 ++ [v]

/-- Result record of `polynomialRegression`. -/
structure FitResult where
  coefficients : List ℚ
  r2 : ℚ
deriving DecidableEq

/-- Row `i` of the polynomial design matrix: `[i^0, i^1, …, i^degree]`. -/
def designRow (i degree : ℕ) : List ℚ :=
  (List.range (degree + 1)).map (fun j => (i : ℚ) ^ j)

/-- The design matrix `X` built by `polynomialRegression`: row `i`, column `j`
is `i^j`. -/
def designMatrix (n degree : ℕ) : List (List ℚ) :=
  (List.range n).map (fun i => designRow i degree)

/-- Column `i` of a row-major matrix. -/
def col (X : List (List ℚ)) (i : ℕ) : List ℚ := X.map (fun row => row.getD i 0)

/-- Dot product of two equally long vectors. -/
def dot (a b : List ℚ) : ℚ := (List.zipWith (fun x y => x * y) a b).sum

/-- `X^T * X` as built by `solveNormalEquations`: entry `(i, j)` is
`Σ_k X[k][i] * X[k][j]`. -/
def xtx (X : List (List ℚ)) (p : ℕ) : List (List ℚ) :=
  (List.range p).map (fun i => (List.range p).map (fun j => dot (col X i) (col X j)))

/-- `X^T * y` as built by `solveNormalEquations`: entry `i` is
`Σ_k X[k][i] * y[k]`. -/
def xty (X : List (List ℚ)) (y : List ℚ) (p : ℕ) : List ℚ :=
  (List.range p).map (fun i => dot (col X i) y)

/-- `gaussianElimination(A, b)` from the analytics module.  Despite its name it
only solves 2×2 systems by Cramer's rule (with an `1e-10` singularity guard);
for any other size it fills slots 0 and 1 by diagonal-only division guarded by
`|| 1`, leaving the remaining slots at their initial `0`. -/
def gaussianElimination (A : List (List ℚ)) (b : List ℚ) : List ℚ :=
  let n := A.length
  let solution := List.replicate n (0 : ℚ)
  if n = 2 then
    let det := mEntry A 0 0 * mEntry A 1 1 - mEntry A 0 1 * mEntry A 1 0
    if |det| < 1 / 10 ^ 10 then [0, 0]
    else
      setExt (setExt solution 0 ((b.getD 0 0 * mEntry A 1 1 - b.getD 1 0 * mEntry A 0 1) / det))
        1 ((mEntry A 0 0 * b.getD 1 0 - mEntry A 1 0 * b.getD 0 0) / det)
  else
    setExt (setExt solution 0 (b.getD 0 0 / jsOr (mEntry A 0 0) 1))
      1 (if 1 < n then b.getD 1 0 / jsOr (mEntry A 1 1) 1 else 0)

/-- `solveNormalEquations(X, y)`: forms `X^T X` and `X^T y` (with
`p = X[0].length`) and hands them to `gaussianElimination`. -/
def solveNormalEquations (X : List (List ℚ)) (y : List ℚ) : List ℚ :=
  let p := (X.headD []).length
  gaussianElimination (xtx X p) (xty X y p)

/-- Evaluation of a fitted polynomial at `t`:
`coefficients.reduce((sum, coef, pow) => sum + coef * t^pow, 0)`. -/
def polyEval (coefficients : List ℚ) (t : ℚ) : ℚ :=
  (coefficients.enum.map (fun pc => pc.2 * t ^ pc.1)).sum

/-- `polynomialRegression(data, degree)` from the analytics module. -/
def polynomialRegression (data : List ℚ) (degree : ℕ) : FitResult :=
  let n := data.length
  if n < degree + 1 then ⟨[0], 0⟩
  else
    let X := designMatrix n degree
    let coefficients := solveNormalEquations X data
    let meanY := data.sum / (n : ℚ)
    let ssRes := (data.enum.map (fun iv => (iv.2 - polyEval coefficients (iv.1 : ℚ)) ^ 2)).sum
    let ssTot := (data.map (fun v => (v - meanY) ^ 2)).sum
    let r2 := if ssTot = 0 then 1 else 1 - ssRes / ssTot
    ⟨coefficients, r2⟩

/-- `movingAverage(data, window)`: for each index `i`, the mean of the slice
`data.slice(max(0, i - ⌊window/2⌋), min(data.length, i + ⌈window/2⌉))`.
Natural-number subtraction `i - window / 2` is exactly the
`Math.max(0, …)` clamp of the source. -/
def movingAverage (data : List ℚ) (window : ℕ) : List ℚ :=
  (List.range data.length).map (fun i =>
    let start := i - window / 2
    let stop := min data.length (i + (window + 1) / 2)
    let slice := (data.drop start).take (stop - start)
    slice.sum / (slice.length : ℚ))

/-- Result record of `detectSeasonality`. -/
structure Seasonality where
  seasonal : List ℚ
  trend : List ℚ
  hasSeasonality : Bool
deriving DecidableEq

/-- `detectSeasonality(data)`: moving-average detrending, 12-bucket seasonal
index (each bucket the mean of the detrended values whose position is congruent
to it mod 12, left at `0` when the bucket is empty), full-length tiled seasonal
series, and a significance flag comparing the mean squared index to `0.1`. -/
def detectSeasonality (data : List ℚ) : Seasonality :=
  let n := data.length
  if n < 12 then ⟨[], [], false⟩
  else
    let trend := movingAverage data 4
    let detrended := data.enum.map (fun iv => iv.2 - trend.getD iv.1 0)
    let seasonalPattern := (List.range 12).map (fun m =>
      let group := (detrended.enum.filter (fun iv => iv.1 % 12 == m)).map (fun iv => iv.2)
      if 0 < group.length then group.sum / (group.length : ℚ) else 0)
    let seasonal := (List.range n).map (fun i => seasonalPattern.getD (i % 12) 0)
    let seasonalVariance := (seasonalPattern.map (fun v => v * v)).sum / 12
    ⟨seasonal, trend, decide ((1 : ℚ) / 10 < seasonalVariance)⟩

/-- The `'up' | 'down' | 'stable'` union type. -/
inductive TrendDir
  | up
  | down
  | stable
deriving DecidableEq

/-- The `MetricData` record of the mock-data module (`predicted` is optional
in the source and defaults to absent/false). -/
structure MetricData where
  month : String
  value : ℚ
  predicted : Bool := false
deriving DecidableEq

/-- The `MLModelResult` record of the analytics module. -/
structure MLModelResult where
  predictions : List MetricData
  confidence : ℚ
  trendDirection : TrendDir
  seasonalPattern : Bool
  accuracy : ℚ
deriving DecidableEq

/-- The month-name table used for future period labels. -/
def monthNames : List String :=
  ["Jan", "Feb", "Mar", "Apr", "May", "Jun", "Jul", "Aug", "Sep", "Oct", "Nov", "Dec"]

/-- `generateEnhancedPredictions(historicalData, months)` with the ambient
`Math.sin`, `Math.random` and current-month reads made explicit parameters
(`msin`, `rnd`, `currentMonth`). -/
def generateEnhancedPredictions (msin rnd : ℕ → ℚ) (currentMonth : ℕ)
    (historicalData : List MetricData) (months : ℕ) : MLModelResult :=
  let values := historicalData.map (fun d => d.value)
  let n := values.length
  if n < 3 then ⟨[], 0, TrendDir.stable, false, 0⟩
  else
    let polyResult := polynomialRegression values (min 3 (n - 1))
    let decomp := detectSeasonality values
    let recentTrend := values.drop (n - 3)
    let trendDirection :=
      if recentTrend.getD 2 0 > recentTrend.getD 0 0 * (105 / 100) then TrendDir.up
      else if recentTrend.getD 2 0 < recentTrend.getD 0 0 * (95 / 100) then TrendDir.down
      else TrendDir.stable
    let predictions := (List.range months).map (fun k =>
      let i := k + 1
      let futureIndex := n + i - 1
      let afterPoly := polyEval polyResult.coefficients (futureIndex : ℚ)
      let afterSeasonal :=
        if decomp.hasSeasonality && decide (0 < decomp.seasonal.length) then
          afterPoly + jsOr (decomp.seasonal.getD (futureIndex % 12) 0) 0
        else afterPoly
      let confidence := min polyResult.r2 (95 / 100)
      let uncertainty := (1 - confidence) * afterSeasonal * (15 / 100)
      let afterMultiplier := afterSeasonal * (12 / 10 + msin futureIndex * (1 / 10))
      let afterNoise := afterMultiplier + (rnd k - 1 / 2) * uncertainty
      let finalValue := max afterNoise (values.getD (values.length - 1) 0 * (2 / 10))
      let futureMonthIndex := (currentMonth + i) % 12
      { month := monthNames.getD futureMonthIndex "", value := finalValue, predicted := true })
    ⟨predictions, polyResult.r2, trendDirection, decomp.hasSeasonality,
      min (polyResult.r2 * 100) 95⟩

/-- Result record of `linearRegression` from the mock-data module. -/
structure LinRegResult where
  slope : ℚ
  intercept : ℚ
  r2 : ℚ
deriving DecidableEq

/-- `linearRegression(data)` from the mock-data module (the computed but
unused `sumYY` of the source is omitted). -/
def linearRegression (data : List ℚ) : LinRegResult :=
  let n := data.length
  if n < 2 then ⟨0, jsOr (data.getD 0 0) 0, 0⟩
  else
    let x := (List.range n).map (fun i => (i : ℚ))
    let sumX := x.sum
    let sumY := data.sum
    let sumXY := (List.zipWith (fun xi yi => xi * yi) x data).sum
    let sumXX := (x.map (fun xi => xi * xi)).sum
    let slope := ((n : ℚ) * sumXY - sumX * sumY) / ((n : ℚ) * sumXX - sumX * sumX)
    let intercept := (sumY - slope * sumX) / (n : ℚ)
    let meanY := sumY / (n : ℚ)
    let ssRes := (data.enum.map (fun iv => (iv.2 - (slope * (iv.1 : ℚ) + intercept)) ^ 2)).sum
    let ssTot := (data.map (fun yi => (yi - meanY) ^ 2)).sum
    let r2 := if ssTot = 0 then 1 else 1 - ssRes / ssTot
    ⟨slope, intercept, r2⟩

/-- The trend label exactly as §4.4 of the specification words it: compare the
first and last of the most recent 3 values of the series. -/
def trendLabelSpec (v : List ℚ) : TrendDir :=
  let first := v.getD (v.length - 3) 0
  let last := v.getD (v.length - 1) 0
  if last > first * (105 / 100) then TrendDir.up
  else if last < first * (95 / 100) then TrendDir.down
  else TrendDir.stable

/-! ### Structural lemmas about the embedded solver -/

theorem setExt_length (l : List ℚ) (i : ℕ) (v : ℚ) :
    (setExt l i v).length = max l.length (i + 1) := by
  unfold setExt
  split
  · simp
    omega
  · simp
    omega

theorem setExt_setExt_replicate (p : ℕ) (hp : 2 ≤ p) (a b : ℚ) :
    setExt (setExt (List.replicate p (0 : ℚ)) 0 a) 1 b = a :: b :: List.replicate (p - 2) 0 := by
  obtain ⟨q, rfl⟩ : ∃ q, p = q + 2 := ⟨p - 2, by omega⟩
  simp [setExt, List.replicate_succ]

theorem gaussianElimination_length (A : List (List ℚ)) (b : List ℚ) :
    (gaussianElimination A b).length = max A.length 2 := by
  unfold gaussianElimination
  dsimp only
  split
  · split
    · simp
      omega
    · simp [setExt_length]
      omega
  · simp [setExt_length]
    omega

/-- In the non-2×2 branch, the solver output is fully explicit: the two
diagonal quotients followed by zeros. -/
theorem gaussianElimination_big (A : List (List ℚ)) (b : List ℚ) (h3 : 3 ≤ A.length) :
    gaussianElimination A b =
      b.getD 0 0 / jsOr (mEntry A 0 0) 1 :: b.getD 1 0 / jsOr (mEntry A 1 1) 1 ::
        List.replicate (A.length - 2) 0 := by
  unfold gaussianElimination
  rw [if_neg (by omega), if_pos (by omega), setExt_setExt_replicate _ (by omega)]

theorem designRow_length (i degree : ℕ) : (designRow i degree).length = degree + 1 := by
  simp [designRow]

theorem designMatrix_headD_length (n degree : ℕ) (hn : 1 ≤ n) :
    ((designMatrix n degree).headD []).length = degree + 1 := by
  obtain ⟨m, rfl⟩ : ∃ m, n = m + 1 := ⟨n - 1, by omega⟩
  simp [designMatrix, List.range_succ_eq_map, designRow_length]

theorem xtx_length (X : List (List ℚ)) (p : ℕ) : (xtx X p).length = p := by
  simp [xtx]

/-- When the fit is attempted (`n ≥ degree+1`), the coefficients are exactly
the solver output on the normal-equations system. -/
theorem polynomialRegression_coefficients (data : List ℚ) (degree : ℕ)
    (h : degree + 1 ≤ data.length) :
    (polynomialRegression data degree).coefficients =
      gaussianElimination (xtx (designMatrix data.length degree) (degree + 1))
        (xty (designMatrix data.length degree) data (degree + 1)) := by
  unfold polynomialRegression solveNormalEquations
  rw [if_neg (by omega)]
  simp only [designMatrix_headD_length data.length degree (by omega)]

theorem getD_replicate_zero (m j : ℕ) : (List.replicate m (0 : ℚ)).getD j 0 = 0 := by
  induction m generalizing j with
  | zero => simp
  | succ k ih =>
    cases j with
    | zero => simp [List.replicate_succ]
    | succ j => simp [List.replicate_succ, ih j]

theorem enumFrom_replicate_eval_zero (t : ℚ) (m k : ℕ) :
    (((List.replicate m (0 : ℚ)).enumFrom k).map (fun pc => pc.2 * t ^ pc.1)).sum = 0 := by
  induction m generalizing k with
  | zero => simp
  | succ q ih => simpa [List.replicate_succ] using ih (k + 1)

/-- A coefficient vector of the shape produced by the fallback branch
evaluates to an affine function of time. -/
theorem polyEval_affine (a b t : ℚ) (m : ℕ) :
    polyEval (a :: b :: List.replicate m 0) t = a + b * t := by
  simp [polyEval, List.enum_cons, List.enumFrom_cons, enumFrom_replicate_eval_zero]

theorem jsOr_zero (a : ℚ) : jsOr a 0 = a := by
  unfold jsOr
  split <;> simp_all

theorem getD_drop (l : List ℚ) : ∀ s j, (l.drop s).getD j 0 = l.getD (s + j) 0 := by
  induction l with
  | nil => simp
  | cons a tl ih =>
    intro s j
    cases s with
    | zero => simp
    | succ s =>
      rw [List.drop_succ_cons, ih s j]
      simp [Nat.succ_add]

theorem take_sum_getD (l : List ℚ) : ∀ k, (l.take k).sum = ∑ j in Finset.range k, l.getD j 0 := by
  induction l with
  | nil => intro k; simp
  | cons a tl ih =>
    intro k
    cases k with
    | zero => simp
    | succ m =>
      rw [List.take_succ_cons, List.sum_cons, ih m, Finset.sum_range_succ']
      simp [add_comm]

/-! ### Claim theorems -/

/-- C4: on fewer than 3 observed points, `forecast` returns exactly the zero
result `{ points: [], confidence: 0, trend: stable, seasonal: false,
accuracy: 0 }`, without raising. -/
theorem forecast_short_series_zero_result (msin rnd : ℕ → ℚ) (month : ℕ)
    (obs : List MetricData) (horizon : ℕ) (h : obs.length < 3) :
    generateEnhancedPredictions msin rnd month obs horizon =
      ⟨[], 0, TrendDir.stable, false, 0⟩ := by
  unfold generateEnhancedPredictions
  rw [if_pos (by simpa using h)]

theorem forecast_short_series_zero_result_witness :
    ([⟨"Jan", (7 : ℚ), false⟩] : List MetricData).length < 3 ∧
      generateEnhancedPredictions (fun _ => 0) (fun _ => 0) 4 [⟨"Jan", (7 : ℚ), false⟩] 5 =
        ⟨[], 0, TrendDir.stable, false, 0⟩ :=
  ⟨by decide,
    forecast_short_series_zero_result (fun _ => 0) (fun _ => 0) 4 _ 5 (by decide)⟩

/-- C5: with the random source fixed at `0.5` and a fixed current month, two
calls of `forecast` on identical observed series and identical horizon produce
identical results (the computation is a pure function of its inputs). -/
theorem forecast_deterministic (msin : ℕ → ℚ) (month : ℕ) (obs1 obs2 : List MetricData)
    (h1 h2 : ℕ) (r1 r2 : ℕ → ℚ) (hobs : obs1 = obs2) (hh : h1 = h2)
    (hr1 : ∀ i, r1 i = 1 / 2) (hr2 : ∀ i, r2 i = 1 / 2) :
    generateEnhancedPredictions msin r1 month obs1 h1 =
      generateEnhancedPredictions msin r2 month obs2 h2 := by
  subst hobs
  subst hh
  have hr : r1 = r2 := funext fun i => (hr1 i).trans (hr2 i).symm
  rw [hr]

theorem forecast_deterministic_witness :
    ([⟨"Jan", (10 : ℚ), false⟩, ⟨"Feb", (20 : ℚ), false⟩, ⟨"Mar", (30 : ℚ), false⟩]
        : List MetricData) =
      [⟨"Jan", (10 : ℚ), false⟩, ⟨"Feb", (20 : ℚ), false⟩, ⟨"Mar", (30 : ℚ), false⟩] ∧
    (∀ i : ℕ, (fun _ : ℕ => (1 : ℚ) / 2) i = 1 / 2) ∧
    generateEnhancedPredictions (fun _ => 0) (fun _ => 1 / 2) 2
        [⟨"Jan", (10 : ℚ), false⟩, ⟨"Feb", (20 : ℚ), false⟩, ⟨"Mar", (30 : ℚ), false⟩] 2 =
      generateEnhancedPredictions (fun _ => 0) (fun _ => 1 / 2) 2
        [⟨"Jan", (10 : ℚ), false⟩, ⟨"Feb", (20 : ℚ), false⟩, ⟨"Mar", (30 : ℚ), false⟩] 2 :=
  ⟨rfl, fun _ => rfl,
    forecast_deterministic (fun _ => 0) 2 _ _ 2 2 (fun _ => 1 / 2) (fun _ => 1 / 2)
      rfl rfl (fun _ => rfl) (fun _ => rfl)⟩

/-- C8: the series `[1, 3, 5, 7, 9]` is fitted exactly: the linear convenience
fit recovers slope 2, intercept 1 and R² = 1, and the degree-1 polynomial fit
recovers coefficients `[1, 2]` and R² = 1. -/
theorem linear_fit_recovers_line :
    linearRegression [1, 3, 5, 7, 9] = ⟨2, 1, 1⟩ ∧
      polynomialRegression [1, 3, 5, 7, 9] 1 = ⟨[1, 2], 1⟩ := by
  constructor
  · norm_num [linearRegression, List.range_succ, jsOr, List.enum_cons, List.enumFrom_cons,
      List.enumFrom_nil]
  · norm_num [polynomialRegression, solveNormalEquations, designMatrix, designRow,
      gaussianElimination, xtx, xty, col, dot, mEntry, setExt, jsOr, polyEval,
      List.range_succ, List.enum_cons, List.enumFrom_cons, List.enumFrom_nil,
      List.replicate_succ, List.set_cons_zero, List.set_cons_succ]

/-- C7 counterexample: the degenerate linear convenience fit does not return
intercept 0 — on the one-point series `[5]` it returns intercept 5. -/
theorem linear_degenerate_intercept_counterexample :
    linearRegression [5] ≠ ⟨0, 0, 0⟩ := by decide

/-- C7 amended: on a series shorter than `degree+1` the polynomial fit returns
coefficients `[0]` with R² 0 without attempting the fit, and on a series
shorter than 2 points the linear convenience fit returns slope 0, R² 0 and an
intercept equal to the first series value (0 when the series is empty). -/
theorem fit_degenerate_fallback :
    (∀ (data : List ℚ) (degree : ℕ), data.length < degree + 1 →
        polynomialRegression data degree = ⟨[0], 0⟩) ∧
    ∀ data : List ℚ, data.length < 2 →
        linearRegression data = ⟨0, data.getD 0 0, 0⟩ := by
  constructor
  · intro data degree h
    unfold polynomialRegression
    rw [if_pos (by omega)]
  · intro data h
    unfold linearRegression
    rw [if_pos (by omega), jsOr_zero]

theorem fit_degenerate_fallback_witness :
    (([(5 : ℚ)] : List ℚ).length < 2 + 1 ∧ polynomialRegression [5] 2 = ⟨[0], 0⟩) ∧
    ([(5 : ℚ)] : List ℚ).length < 2 ∧
      linearRegression [5] = ⟨0, ([(5 : ℚ)] : List ℚ).getD 0 0, 0⟩ :=
  ⟨⟨by decide, fit_degenerate_fallback.1 [5] 2 (by decide)⟩,
    by decide, fit_degenerate_fallback.2 [5] (by decide)⟩

/-- C3 counterexample: for degree 0 the fit on `[5]` succeeds normally but the
coefficient vector has length 2, not `degree + 1 = 1` (the JavaScript
assignment `solution[1] = 0` extends the length-1 array). -/
theorem degree_zero_coefficients_length_counterexample :
    (polynomialRegression [5] 0).coefficients.length ≠ 0 + 1 := by decide

/-- C3 amended: for every degree ≥ 1 and every series with at least
`degree + 1` points, the coefficients returned by the fit have length exactly
`degree + 1` (for degree 0 the returned length is 2 instead). -/
theorem coefficients_length_of_pos_degree (data : List ℚ) (degree : ℕ)
    (hd : 1 ≤ degree) (hn : degree + 1 ≤ data.length) :
    (polynomialRegression data degree).coefficients.length = degree + 1 := by
  rw [polynomialRegression_coefficients data degree hn, gaussianElimination_length, xtx_length]
  omega

theorem coefficients_length_of_pos_degree_witness :
    1 ≤ 1 ∧ 1 + 1 ≤ ([1, 3, 5] : List ℚ).length ∧
      (polynomialRegression [1, 3, 5] 1).coefficients.length = 1 + 1 :=
  ⟨by decide, by decide,
    coefficients_length_of_pos_degree [1, 3, 5] 1 (by decide) (by decide)⟩

/-- C2 counterexample: on the degree-2 fit of `[0, 1, 2]` the coefficient at
index 2 is 0, not the diagonal quotient `(X^T y)[2] / (X^T X)[2][2] = 9/17`:
the fallback only fills slots 0 and 1. -/
theorem diagonal_fallback_counterexample :
    (polynomialRegression [0, 1, 2] 2).coefficients.getD 2 0 ≠
      (xty (designMatrix 3 2) [0, 1, 2] 3).getD 2 0 /
        jsOr (mEntry (xtx (designMatrix 3 2) 3) 2 2) 1 := by
  norm_num [polynomialRegression, solveNormalEquations, designMatrix, designRow,
    gaussianElimination, xtx, xty, col, dot, mEntry, setExt, jsOr,
    List.range_succ, List.replicate_succ, List.set_cons_zero, List.set_cons_succ]

/-- C2 amended: for every degree > 1 on a series with at least `degree + 1`
points, the solver fills only coefficients 0 and 1 with the guarded diagonal
quotients `(X^T y)[k] / (X^T X)[k][k]`; every coefficient at index 2 and above
is left at 0. -/
theorem diagonal_fallback_form (data : List ℚ) (degree : ℕ) (hd : 2 ≤ degree)
    (hn : degree + 1 ≤ data.length) :
    (polynomialRegression data degree).coefficients.getD 0 0 =
        (xty (designMatrix data.length degree) data (degree + 1)).getD 0 0 /
          jsOr (mEntry (xtx (designMatrix data.length degree) (degree + 1)) 0 0) 1 ∧
    (polynomialRegression data degree).coefficients.getD 1 0 =
        (xty (designMatrix data.length degree) data (degree + 1)).getD 1 0 /
          jsOr (mEntry (xtx (designMatrix data.length degree) (degree + 1)) 1 1) 1 ∧
    ∀ k, 2 ≤ k → (polynomialRegression data degree).coefficients.getD k 0 = 0 := by
  rw [polynomialRegression_coefficients data degree hn,
    gaussianElimination_big _ _ (by rw [xtx_length]; omega)]
  refine ⟨rfl, rfl, ?_⟩
  intro k hk
  obtain ⟨j, rfl⟩ : ∃ j, k = j + 2 := ⟨k - 2, by omega⟩
  simp [getD_replicate_zero]

theorem diagonal_fallback_form_witness :
    2 ≤ 2 ∧ 2 + 1 ≤ ([0, 1, 2] : List ℚ).length ∧
      ((polynomialRegression [0, 1, 2] 2).coefficients.getD 0 0 =
          (xty (designMatrix ([0, 1, 2] : List ℚ).length 2) [0, 1, 2] (2 + 1)).getD 0 0 /
            jsOr (mEntry (xtx (designMatrix ([0, 1, 2] : List ℚ).length 2) (2 + 1)) 0 0) 1 ∧
        (polynomialRegression [0, 1, 2] 2).coefficients.getD 1 0 =
          (xty (designMatrix ([0, 1, 2] : List ℚ).length 2) [0, 1, 2] (2 + 1)).getD 1 0 /
            jsOr (mEntry (xtx (designMatrix ([0, 1, 2] : List ℚ).length 2) (2 + 1)) 1 1) 1 ∧
        ∀ k, 2 ≤ k → (polynomialRegression [0, 1, 2] 2).coefficients.getD k 0 = 0) :=
  ⟨by decide, by decide, diagonal_fallback_form [0, 1, 2] 2 (by decide) (by decide)⟩

/-- C1 counterexample: on a single observed point the forecast returns no
points at all, so it does not return exactly `horizon = 1` points. -/
theorem forecast_horizon_counterexample :
    (generateEnhancedPredictions (fun _ => 0) (fun _ => 0) 0
        [⟨"Jan", 5, false⟩] 1).predictions.length ≠ 1 := by decide

/-- C1 amended: for every observed series with at least 3 points and every
positive horizon, `forecast` returns exactly `horizon` points, each marked
`isPredicted = true` and each with a value at least `0.2` times the last
observed value. -/
theorem forecast_points_spec (msin rnd : ℕ → ℚ) (month : ℕ) (obs : List MetricData)
    (horizon : ℕ) (h3 : 3 ≤ obs.length) (_hpos : 1 ≤ horizon) :
    (generateEnhancedPredictions msin rnd month obs horizon).predictions.length = horizon ∧
    ∀ p ∈ (generateEnhancedPredictions msin rnd month obs horizon).predictions,
      p.predicted = true ∧
      (obs.map fun d => d.value).getD (obs.length - 1) 0 * (2 / 10) ≤ p.value := by
  unfold generateEnhancedPredictions
  rw [if_neg (by simp only [List.length_map]; omega)]
  dsimp only
  constructor
  · simp
  · intro p hp
    simp only [List.mem_map, List.mem_range] at hp
    obtain ⟨k, hk, rfl⟩ := hp
    refine ⟨rfl, ?_⟩
    simp only [List.length_map]
    exact le_max_right _ _

theorem forecast_points_spec_witness :
    3 ≤ ([⟨"Jan", (10 : ℚ), false⟩, ⟨"Feb", (20 : ℚ), false⟩, ⟨"Mar", (30 : ℚ), false⟩]
          : List MetricData).length ∧
    1 ≤ 2 ∧
    ((generateEnhancedPredictions (fun _ => 0) (fun _ => 1 / 2) 3
          [⟨"Jan", (10 : ℚ), false⟩, ⟨"Feb", (20 : ℚ), false⟩,
            ⟨"Mar", (30 : ℚ), false⟩] 2).predictions.length = 2 ∧
      ∀ p ∈ (generateEnhancedPredictions (fun _ => 0) (fun _ => 1 / 2) 3
          [⟨"Jan", (10 : ℚ), false⟩, ⟨"Feb", (20 : ℚ), false⟩,
            ⟨"Mar", (30 : ℚ), false⟩] 2).predictions,
        p.predicted = true ∧
        (([⟨"Jan", (10 : ℚ), false⟩, ⟨"Feb", (20 : ℚ), false⟩,
              ⟨"Mar", (30 : ℚ), false⟩] : List MetricData).map fun d => d.value).getD
            (([⟨"Jan", (10 : ℚ), false⟩, ⟨"Feb", (20 : ℚ), false⟩,
                ⟨"Mar", (30 : ℚ), false⟩] : List MetricData).length - 1) 0 * (2 / 10) ≤
          p.value) :=
  ⟨by decide, by decide,
    forecast_points_spec (fun _ => 0) (fun _ => 1 / 2) 3 _ 2 (by decide) (by decide)⟩

/-- C6: for every observed series with at least 3 points the trend label
compares the first and last of the most recent 3 values (`up` above +5%,
`down` below −5%, else `stable`); in particular recent values
`[100, 100, 106]` give `up`, `[100, 100, 94]` give `down`, and
`[100, 100, 101]` give `stable`. -/
theorem forecast_trend_label :
    (∀ (msin rnd : ℕ → ℚ) (month : ℕ) (obs : List MetricData) (horizon : ℕ),
        3 ≤ obs.length →
        (generateEnhancedPredictions msin rnd month obs horizon).trendDirection =
          trendLabelSpec (obs.map fun d => d.value)) ∧
    (generateEnhancedPredictions (fun _ => 0) (fun _ => 1 / 2) 0
        [⟨"Jan", 100, false⟩, ⟨"Feb", 100, false⟩, ⟨"Mar", 106, false⟩] 1).trendDirection =
      TrendDir.up ∧
    (generateEnhancedPredictions (fun _ => 0) (fun _ => 1 / 2) 0
        [⟨"Jan", 100, false⟩, ⟨"Feb", 100, false⟩, ⟨"Mar", 94, false⟩] 1).trendDirection =
      TrendDir.down ∧
    (generateEnhancedPredictions (fun _ => 0) (fun _ => 1 / 2) 0
        [⟨"Jan", 100, false⟩, ⟨"Feb", 100, false⟩, ⟨"Mar", 101, false⟩] 1).trendDirection =
      TrendDir.stable := by
  refine ⟨?_, ?_, ?_, ?_⟩
  · intro msin rnd month obs horizon h3
    unfold generateEnhancedPredictions trendLabelSpec
    rw [if_neg (by simp only [List.length_map]; omega)]
    dsimp only
    rw [getD_drop, getD_drop]
    simp only [List.length_map, Nat.add_zero]
    have h1 : obs.length - 3 + 2 = obs.length - 1 := by omega
    rw [h1]
  · norm_num [generateEnhancedPredictions]
  · norm_num [generateEnhancedPredictions]
  · norm_num [generateEnhancedPredictions]

theorem forecast_trend_label_witness :
    3 ≤ ([⟨"Jan", (1 : ℚ), false⟩, ⟨"Feb", (2 : ℚ), false⟩, ⟨"Mar", (3 : ℚ), false⟩]
          : List MetricData).length ∧
      (generateEnhancedPredictions (fun _ => 0) (fun _ => 0) 5
          [⟨"Jan", (1 : ℚ), false⟩, ⟨"Feb", (2 : ℚ), false⟩,
            ⟨"Mar", (3 : ℚ), false⟩] 2).trendDirection =
        trendLabelSpec (([⟨"Jan", (1 : ℚ), false⟩, ⟨"Feb", (2 : ℚ), false⟩,
            ⟨"Mar", (3 : ℚ), false⟩] : List MetricData).map fun d => d.value) :=
  ⟨by decide, forecast_trend_label.1 (fun _ => 0) (fun _ => 0) 5 _ 2 (by decide)⟩

/-- C9: for every non-empty series and every window ≥ 1, `movingAverage`
returns a series of the same length whose entry `i` is the mean of the
entries in the half-open window `[i - ⌊window/2⌋, i + ⌈window/2⌉)` clipped to
the series bounds. -/
theorem movingAverage_spec (data : List ℚ) (window : ℕ) (_hne : data ≠ [])
    (_hw : 1 ≤ window) :
    (movingAverage data window).length = data.length ∧
    ∀ i, i < data.length →
      (movingAverage data window).getD i 0 =
        (∑ j in Finset.Ico (i - window / 2) (min data.length (i + (window + 1) / 2)),
            data.getD j 0) /
          ((min data.length (i + (window + 1) / 2) - (i - window / 2) : ℕ) : ℚ) := by
  have hlen : (movingAverage data window).length = data.length := by
    simp [movingAverage]
  refine ⟨hlen, ?_⟩
  intro i hi
  rw [List.getD_eq_getElem _ _ (by rw [hlen]; exact hi)]
  simp only [movingAverage, List.getElem_map, List.getElem_range]
  have hslice_len :
      ((data.drop (i - window / 2)).take
          (min data.length (i + (window + 1) / 2) - (i - window / 2))).length =
        min data.length (i + (window + 1) / 2) - (i - window / 2) := by
    rw [List.length_take, List.length_drop]
    omega
  rw [hslice_len, take_sum_getD]
  congr 1
  rw [Finset.sum_Ico_eq_sum_range]
  apply Finset.sum_congr rfl
  intro j hj
  rw [getD_drop]

theorem movingAverage_spec_witness :
    ([1, 2, 3] : List ℚ) ≠ [] ∧ 1 ≤ 3 ∧
      ((movingAverage [1, 2, 3] 3).length = ([1, 2, 3] : List ℚ).length ∧
        ∀ i, i < ([1, 2, 3] : List ℚ).length →
          (movingAverage [1, 2, 3] 3).getD i 0 =
            (∑ j in Finset.Ico (i - 3 / 2) (min ([1, 2, 3] : List ℚ).length (i + (3 + 1) / 2)),
                ([1, 2, 3] : List ℚ).getD j 0) /
              ((min ([1, 2, 3] : List ℚ).length (i + (3 + 1) / 2) - (i - 3 / 2) : ℕ) : ℚ)) :=
  ⟨by simp, by decide, movingAverage_spec [1, 2, 3] 3 (by simp) (by decide)⟩

/-- C10: for every observed series with at least 4 points, the fit performed
by `forecast` (degree `min(3, n-1)`) leaves every coefficient at index 2 and
above at zero, so the trend component evaluated at any time is an affine
function of time. -/
theorem forecast_trend_component_affine (obs : List MetricData) (h4 : 4 ≤ obs.length) :
    (∀ k, 2 ≤ k →
        (polynomialRegression (obs.map fun d => d.value)
            (min 3 (obs.length - 1))).coefficients.getD k 0 = 0) ∧
    ∀ t : ℚ,
      polyEval (polynomialRegression (obs.map fun d => d.value)
          (min 3 (obs.length - 1))).coefficients t =
        (polynomialRegression (obs.map fun d => d.value)
            (min 3 (obs.length - 1))).coefficients.getD 0 0 +
        (polynomialRegression (obs.map fun d => d.value)
            (min 3 (obs.length - 1))).coefficients.getD 1 0 * t := by
  have hmin : min 3 (obs.length - 1) = 3 := by omega
  rw [hmin]
  have hlen : (obs.map fun d => d.value).length = obs.length := by simp
  have hcoef := polynomialRegression_coefficients (obs.map fun d => d.value) 3
    (by rw [hlen]; omega)
  rw [hcoef, gaussianElimination_big _ _ (by rw [xtx_length]; omega)]
  constructor
  · intro k hk
    obtain ⟨j, rfl⟩ : ∃ j, k = j + 2 := ⟨k - 2, by omega⟩
    simp [getD_replicate_zero]
  · intro t
    rw [polyEval_affine]
    simp

theorem forecast_trend_component_affine_witness :
    4 ≤ ([⟨"Jan", (1 : ℚ), false⟩, ⟨"Feb", (2 : ℚ), false⟩, ⟨"Mar", (4 : ℚ), false⟩,
          ⟨"Apr", (8 : ℚ), false⟩] : List MetricData).length ∧
    ((∀ k, 2 ≤ k →
        (polynomialRegression (([⟨"Jan", (1 : ℚ), false⟩, ⟨"Feb", (2 : ℚ), false⟩,
              ⟨"Mar", (4 : ℚ), false⟩, ⟨"Apr", (8 : ℚ), false⟩]
              : List MetricData).map fun d => d.value)
            (min 3 (([⟨"Jan", (1 : ℚ), false⟩, ⟨"Feb", (2 : ℚ), false⟩,
                ⟨"Mar", (4 : ℚ), false⟩, ⟨"Apr", (8 : ℚ), false⟩]
                : List MetricData).length - 1))).coefficients.getD k 0 = 0) ∧
      ∀ t : ℚ,
        polyEval (polynomialRegression (([⟨"Jan", (1 : ℚ), false⟩, ⟨"Feb", (2 : ℚ), false⟩,
              ⟨"Mar", (4 : ℚ), false⟩, ⟨"Apr", (8 : ℚ), false⟩]
              : List MetricData).map fun d => d.value)
            (min 3 (([⟨"Jan", (1 : ℚ), false⟩, ⟨"Feb", (2 : ℚ), false⟩,
                ⟨"Mar", (4 : ℚ), false⟩, ⟨"Apr", (8 : ℚ), false⟩]
                : List MetricData).length - 1))).coefficients t =
          (polynomialRegression (([⟨"Jan", (1 : ℚ), false⟩, ⟨"Feb", (2 : ℚ), false⟩,
              ⟨"Mar", (4 : ℚ), false⟩, ⟨"Apr", (8 : ℚ), false⟩]
              : List MetricData).map fun d => d.value)
            (min 3 (([⟨"Jan", (1 : ℚ), false⟩, ⟨"Feb", (2 : ℚ), false⟩,
                ⟨"Mar", (4 : ℚ), false⟩, ⟨"Apr", (8 : ℚ), false⟩]
                : List MetricData).length - 1))).coefficients.getD 0 0 +
          (polynomialRegression (([⟨"Jan", (1 : ℚ), false⟩, ⟨"Feb", (2 : ℚ), false⟩,
              ⟨"Mar", (4 : ℚ), false⟩, ⟨"Apr", (8 : ℚ), false⟩]
              : List MetricData).map fun d => d.value)
            (min 3 (([⟨"Jan", (1 : ℚ), false⟩, ⟨"Feb", (2 : ℚ), false⟩,
                ⟨"Mar", (4 : ℚ), false⟩, ⟨"Apr", (8 : ℚ), false⟩]
                : List MetricData).length - 1))).coefficients.getD 1 0 * t) :=
  ⟨by decide,
    forecast_trend_component_affine
      [⟨"Jan", (1 : ℚ), false⟩, ⟨"Feb", (2 : ℚ), false⟩, ⟨"Mar", (4 : ℚ), false⟩,
        ⟨"Apr", (8 : ℚ), false⟩] (by decide)⟩

end InsightHub
